import Mathlib

/-!
Verification of the LENOX chat-widget response renderer.

The JavaScript under verification lives in `BACKEND/static/script.js` (with
near-duplicate variants in other files).  That script declares both
`processResponseData` and `handleVisualResponse` twice at top level; by
JavaScript function-declaration hoisting the *later* declaration shadows the
earlier one, so the definitions modelled here are the later (effective)
declarations.  Strings are modelled as `List Char` / `String`; regular
expressions of the source are compiled by hand into scanners specialised to the
exact patterns of the source; scanners that skip more than one character per
step take a fuel argument (always called with fuel = input length, which is
sufficient since every step consumes at least one input character), keeping
every definition structurally recursive and kernel-evaluable.
-/

/-- JS `\w` character class (ASCII letters, digits, underscore), used for the
`\b` word boundary of the URL regex. -/
def isWordChar (c : Char) : Bool := c.isAlphanum || c = '_'

/-- The character class `[-A-Z0-9+&@#\/%?=~_|!:,.;]` with the `i` flag, i.e.
the characters allowed in the body of a URL match. -/
def isUrlChar (c : Char) : Bool :=
  c.isAlphanum || c = '-' || c = '+' || c = '&' || c = '@' || c = '#' ||
  c = '/' || c = '%' || c = '?' || c = '=' || c = '~' || c = '_' || c = '|' ||
  c = '!' || c = ':' || c = ',' || c = '.' || c = ';'

/-- The character class `[-A-Z0-9+&@#\/%=~_|]` with the `i` flag: the
characters a URL match may end with (no trailing punctuation). -/
def isUrlEndChar (c : Char) : Bool :=
  c.isAlphanum || c = '-' || c = '+' || c = '&' || c = '@' || c = '#' ||
  c = '/' || c = '%' || c = '=' || c = '~' || c = '_' || c = '|'

/-- Does `t` start with `pat`? (`pat` second argument.) -/
def startsWithL : List Char → List Char → Bool
  | _, [] => true
  | [], _ :: _ => false
  | c :: cs, d :: ds => (c = d) && startsWithL cs ds

/-- Case-insensitive prefix test against a lowercase pattern (for the `i`
flag on the scheme alternatives). -/
def ciStartsWith : List Char → List Char → Bool
  | _, [] => true
  | [], _ :: _ => false
  | c :: cs, d :: ds => (c.toLower = d) && ciStartsWith cs ds

/-- JS `text.includes(sub)`: substring containment. -/
def containsSub (t sub : List Char) : Bool :=
  match t with
  | [] => startsWithL [] sub
  | c :: t' => startsWithL (c :: t') sub || containsSub t' sub

/-- Number of positions of `t` at which `pat` occurs. -/
def countSub (t pat : List Char) : Nat :=
  match t with
  | [] => 0
  | c :: t' => (if startsWithL (c :: t') pat then 1 else 0) + countSub t' pat

/-- Try to split off one of the scheme alternatives `(https?|ftp|file)` of the
URL regex, together with the literal `://`, case-insensitively.  The regex
backtracking order (`https` before `http`, then `ftp`, `file`) is reproduced
by the order of the alternatives; the original characters are kept. -/
def schemeSplit (cs : List Char) : Option (List Char × List Char) :=
  (if ciStartsWith cs "https://".data then
    some (cs.take 8, cs.drop 8) else none) <|>
  (if ciStartsWith cs "http://".data then
    some (cs.take 7, cs.drop 7) else none) <|>
  (if ciStartsWith cs "ftp://".data then
    some (cs.take 6, cs.drop 6) else none) <|>
  (if ciStartsWith cs "file://".data then
    some (cs.take 7, cs.drop 7) else none)

/-- Match the URL regex body at the current position (the `\b` boundary is
checked by the caller): scheme, `://`, then `[class]*[endclass]` — i.e. the
maximal run of URL characters trimmed back so the last character is a
permitted end character.  Returns the matched characters and the rest. -/
def matchUrlAt (cs : List Char) : Option (List Char × List Char) :=
  match schemeSplit cs with
  | none => none
  | some (sch, rest) =>
    let run := rest.takeWhile isUrlChar
    let kept := (run.reverse.dropWhile (fun c => !(isUrlEndChar c))).reverse
    if kept.isEmpty then none
    else some (sch ++ kept, rest.drop kept.length)

/-- Does the match end in a word character (for `\b` tracking after a match)? -/
def wordTail (m : List Char) : Bool :=
  match m.getLast? with
  | some c => isWordChar c
  | none => false

/-- Global regex replace for the URL regex: leftmost, non-overlapping matches,
each replaced by `f match`; `prevW` tracks whether the previous character was
a word character (the regex starts with `\b` and a letter, so a match can only
start after a non-word character or at the start).  Fuel = input length is
always sufficient: every step consumes at least one input character. -/
def urlGo (f : List Char → List Char) : Nat → List Char → Bool → List Char
  | 0, cs, _ => cs
  | _ + 1, [], _ => []
  | n + 1, c :: cs, prevW =>
    if prevW then c :: urlGo f n cs (isWordChar c)
    else
      match matchUrlAt (c :: cs) with
      | some (m, rest) => f m ++ urlGo f n rest (wordTail m)
      | none => c :: urlGo f n cs (isWordChar c)

/-- The anchor markup produced for a URL match `u`:
`<a href="u" target="_blank">u</a>`. -/
def anchorOf (u : List Char) : List Char :=
  "<a href=\"".data ++ u ++ "\" target=\"_blank\">".data ++ u ++ "</a>".data

/-- The replacement callback of `convertUrlsToLinks`: a match is left
unchanged when the *original* text already contains `<a href="` immediately
followed by the matched URL, otherwise it is wrapped in an anchor. -/
def urlCallback (orig : List Char) (u : List Char) : List Char :=
  if containsSub orig ("<a href=\"".data ++ u) then u else anchorOf u

/-- `convertUrlsToLinks(text)` from `static/script.js` (lines 460-469). -/
def convertUrlsToLinks (s : String) : String :=
  ⟨urlGo (urlCallback s.data) s.data.length s.data false⟩

/-- Modelled from the spec: "the rendered Message contains the original text
with bare URLs replaced by anchors" — the same URL scanner, but wrapping
*every* match in exactly one anchor, unconditionally. -/
def wrapAllUrls (s : String) : String :=
  ⟨urlGo anchorOf s.data.length s.data false⟩

/-- Global literal replace (used for the replaces of `appendMessage` whose
patterns contain no metacharacters).  Fuel = input length suffices; all
patterns used are nonempty. -/
def replaceAllGo (pat rep : List Char) : Nat → List Char → List Char
  | 0, cs => cs
  | _ + 1, [] => []
  | n + 1, c :: cs =>
    if !pat.isEmpty && startsWithL (c :: cs) pat then
      rep ++ replaceAllGo pat rep n ((c :: cs).drop pat.length)
    else c :: replaceAllGo pat rep n cs

/-- Literal global replace on strings. -/
def replaceAllL (pat rep s : String) : String :=
  ⟨replaceAllGo pat.data rep.data s.data.length s.data⟩

/-- Line terminators that JS `.` does not match. -/
def isLineTerm (c : Char) : Bool :=
  c = '\n' || c = '\r' || c = '\u2028' || c = '\u2029'

/-- Global replace of the regex `- (.+)` (global) by `<li>$1</li>`: at each `- `, the greedy
`.+` captures everything up to the next line terminator (or the end); the
scan resumes after the match. -/
def bulletGo : Nat → List Char → List Char
  | 0, cs => cs
  | _ + 1, [] => []
  | n + 1, c :: cs =>
    if c = '-' then
      match cs with
      | ' ' :: rest =>
        let run := rest.takeWhile (fun ch => !(isLineTerm ch))
        if run.isEmpty then c :: bulletGo n cs
        else "<li>".data ++ run ++ "</li>".data ++ bulletGo n (rest.drop run.length)
      | _ => c :: bulletGo n cs
    else c :: bulletGo n cs

/-- The `- (.+)` to `<li>$1</li>` replace on strings. -/
def bulletReplace (s : String) : String :=
  ⟨bulletGo s.data.length s.data⟩

/-- The string branch of `appendMessage` (`static/script.js` lines 228-243):
the transformations applied to a string message before it becomes the HTML
body of the rendered message.  Note the order: all newlines are replaced by
`<br>` *before* the two patterns that require a literal newline
(the Response-header rule and the li-newline rule) are tried. -/
def appendMessageBody (s : String) : String :=
  let m1 := convertUrlsToLinks s
  let m2 := replaceAllL "\n" "<br>" m1
  let m3 := replaceAllL "**Response:**\n" "**Response:**<br><ul>" m2
  let m4 := bulletReplace m3
  let m5 := replaceAllL "</li>\n" "</li>" m4
  let m6 := replaceAllL "</li><br>" "</li>" m5
  let m7 := replaceAllL "</ul><br>" "</ul>" m6
  replaceAllL "</ul>" "</ul><br>" m7

/-- A JSON value as delivered by `response.json()`.  Numbers are modelled as
integers (no claim depends on float behaviour). -/
inductive JVal where
  | null
  | jbool (b : Bool)
  | jnum (n : Int)
  | jstr (s : String)
  | jarr (xs : List JVal)
  | jobj (fs : List (String × JVal))

/-- Property lookup on an object's field list (first occurrence wins).
`none` plays the role of JS `undefined`. -/
def lookupField : List (String × JVal) → String → Option JVal
  | [], _ => none
  | (k, v) :: fs, key => if k = key then some v else lookupField fs key

/-- Property access `base.k` on a possibly-undefined base, as an exception
(`TypeError`) or a possibly-undefined value.  Accessing a property of a
non-object primitive yields `undefined`; string properties of arrays are not
modelled (the source never reads one). -/
def jsGetE (base : Option JVal) (k : String) : Except String (Option JVal) :=
  match base with
  | none =>
    .error ("Cannot read properties of undefined (reading \x27" ++ k ++ "\x27)")
  | some .null =>
    .error ("Cannot read properties of null (reading \x27" ++ k ++ "\x27)")
  | some (.jobj fs) => .ok (lookupField fs k)
  | some _ => .ok none

/-- Exception-free property access, usable where the base is known to be an
object. -/
def jvGet (v : JVal) (k : String) : Option JVal :=
  match v with
  | .jobj fs => lookupField fs k
  | _ => none

/-- JS truthiness of a possibly-undefined value. -/
def truthy : Option JVal → Bool
  | none => false
  | some .null => false
  | some (.jbool b) => b
  | some (.jnum n) => !(n = 0)
  | some (.jstr s) => !s.isEmpty
  | some (.jarr _) => true
  | some (.jobj _) => true

/-- `Array.prototype.toString` element rendering: `null` (and `undefined`)
become the empty string; `f` renders the other values. -/
def arrJoin (f : JVal → String) : List JVal → String
  | [] => ""
  | [v] => match v with | .null => "" | v => f v
  | v :: vs => (match v with | .null => "" | v => f v) ++ "," ++ arrJoin f vs

/-- Array nesting depth of a value (used as fuel below; `jsDepth v` always
suffices to render `v` fully). -/
def jsDepth : JVal → Nat
  | .jarr xs => 1 + (xs.attach.map (fun x => jsDepth x.1)).foldr max 0
  | _ => 0
decreasing_by
  have := List.sizeOf_lt_of_mem x.2
  simp only [JVal.jarr.sizeOf_spec]
  omega

/-- Fuelled JS `String(value)` coercion (template-literal interpolation,
DOMString conversion).  The fuel only limits array nesting depth and is
instantiated with `jsDepth` of the value, which always suffices. -/
def jsStrF : JVal → Nat → String
  | .null, _ => "null"
  | .jbool b, _ => cond b "true" "false"
  | .jnum n, _ => toString n
  | .jstr s, _ => s
  | .jobj _, _ => "[object Object]"
  | .jarr _, 0 => ""
  | .jarr xs, n + 1 => arrJoin (fun v => jsStrF v n) xs

/-- JS `String(value)` coercion of a defined value.  The scalar cases repeat
those of `jsStrF` (they do not depend on the fuel) so that they evaluate by
kernel reduction; only arrays go through the fuelled recursion. -/
def jsStrV : JVal → String
  | .null => "null"
  | .jbool b => cond b "true" "false"
  | .jnum n => toString n
  | .jstr s => s
  | .jobj _ => "[object Object]"
  | .jarr xs => jsStrF (.jarr xs) (jsDepth (.jarr xs))

/-- JS string coercion of a possibly-undefined value (`undefined` interpolates
as `"undefined"`). -/
def jsStrO : Option JVal → String
  | none => "undefined"
  | some v => jsStrV v

/-- Assigning to `textContent` (a nullable DOMString): `undefined` and `null`
both clear the text; other values are string-coerced. -/
def textContentOf : Option JVal → String
  | none => ""
  | some .null => ""
  | some v => jsStrV v

/-- JSON string escaping of one character (the escapes JSON.stringify
produces for the characters that can arise here). -/
def jsonEscChar (c : Char) : List Char :=
  if c = '\\' then ['\\', '\\']
  else if c = '"' then ['\\', '"']
  else if c = '\n' then ['\\', 'n']
  else if c = '\r' then ['\\', 'r']
  else if c = '\t' then ['\\', 't']
  else [c]

/-- JSON string escaping. -/
def jsonEsc (s : String) : String := ⟨s.data.flatMap jsonEscChar⟩

/-- `n` spaces (JSON.stringify indentation). -/
def spacesStr (n : Nat) : String := ⟨List.replicate n ' '⟩

/-- Join pretty-printed items with `,` and a newline. -/
def joinComma : List String → String
  | [] => ""
  | [s] => s
  | s :: ss => s ++ ",\n" ++ joinComma ss

/-- Object nesting depth (fuel for `JSON.stringify`; counts both array and
object nesting). -/
def jsonDepth : JVal → Nat
  | .jarr xs => 1 + (xs.attach.map (fun x => jsonDepth x.1)).foldr max 0
  | .jobj fs => 1 + (fs.attach.map (fun x => jsonDepth x.1.2)).foldr max 0
  | _ => 0
decreasing_by
  · have := List.sizeOf_lt_of_mem x.2
    simp only [JVal.jarr.sizeOf_spec]
    omega
  · have h1 := List.sizeOf_lt_of_mem x.2
    obtain ⟨⟨k, v⟩, hx⟩ := x
    simp only [Prod.mk.sizeOf_spec] at h1
    simp only [JVal.jobj.sizeOf_spec]
    omega

/-- Fuelled `JSON.stringify(value, null, 2)` at indent level `ind`.  The fuel
bounds nesting depth and is instantiated with `jsonDepth`, which suffices. -/
def jsonStrF : JVal → Nat → Nat → String
  | .null, _, _ => "null"
  | .jbool b, _, _ => cond b "true" "false"
  | .jnum n, _, _ => toString n
  | .jstr s, _, _ => "\"" ++ jsonEsc s ++ "\""
  | .jarr _, 0, _ => ""
  | .jobj _, 0, _ => ""
  | .jarr xs, n + 1, ind =>
    match xs with
    | [] => "[]"
    | _ =>
      "[\n" ++
        joinComma (xs.map (fun v => spacesStr (ind + 2) ++ jsonStrF v n (ind + 2))) ++
      "\n" ++ spacesStr ind ++ "]"
  | .jobj fs, n + 1, ind =>
    match fs with
    | [] => "\x7b\x7d"
    | _ =>
      "\x7b\n" ++
        joinComma (fs.map (fun kv =>
          spacesStr (ind + 2) ++ "\"" ++ jsonEsc kv.1 ++ "\": " ++
            jsonStrF kv.2 n (ind + 2))) ++
      "\n" ++ spacesStr ind ++ "\x7d"

/-- `JSON.stringify(value, null, 2)` (scalar cases repeated from `jsonStrF`
for kernel evaluability, as in `jsStrV`). -/
def jsonStringify : JVal → String
  | .null => "null"
  | .jbool b => cond b "true" "false"
  | .jnum n => toString n
  | .jstr s => "\"" ++ jsonEsc s ++ "\""
  | .jarr xs => jsonStrF (.jarr xs) (jsonDepth (.jarr xs)) 0
  | .jobj fs => jsonStrF (.jobj fs) (jsonDepth (.jobj fs)) 0

/-- Observable UI effects of the handlers, in the order they are performed.
`msg` is an `appendMessage` append to the message log (`cls` is the CSS
class, `body` the final HTML body); `msgWithImage` is the message container
built by the effective `handleVisualResponse` (its image, when present, is an
`<img>` appended inside the same container). -/
inductive Eff where
  | msg (cls : String) (body : String)
  | msgWithImage (body : String) (img : Option String)
  | alertE (text : String)
  | setQueryInput (text : String)
  | loading (b : Bool)
  | netRequest (endpoint : String) (payload : String)
  | playAudio
  | setStartDisabled (b : Bool)
  | feedbackPost (query : String) (feedback : String)
deriving DecidableEq

/-- `appendMessage(message, className)` for a string message: the body goes
through the string-transformation pipeline (lines 228-243). -/
def appendMessageEff (cls : String) (body : String) : Eff :=
  .msg cls (appendMessageBody body)

/-- `appendMessage(message, className)` for an arbitrary (possibly
non-string) value: non-strings are assigned to `innerHTML` directly
(string-coerced), strings go through the pipeline. -/
def appendMessageAny (cls : String) (v : Option JVal) : Eff :=
  match v with
  | some (.jstr s) => appendMessageEff cls s
  | v => .msg cls (jsStrO v)

/-- The effective `handleVisualResponse` (`static/script.js` lines 422-456,
the later of the two declarations, which shadows the status-checking one at
lines 351-359): renders `response.content` as text via `textContent` and,
whenever `response.image` is truthy, an `<img>` with that source — with no
check of any `status` field.  The caller passes the fields of the (object)
response. -/
def handleVisualResponse (fs : List (String × JVal)) : List Eff :=
  [ .msgWithImage (textContentOf (lookupField fs "content"))
      (if truthy (lookupField fs "image") then
        some (jsStrO (lookupField fs "image")) else none) ]

/-- The first, shadowed declaration of `handleVisualResponse` (lines 351-359):
it checks `content.status === 'success'` and never renders an image.  It is
unreachable in the effective script and is recorded here only for
documentation. -/
def handleVisualResponseShadowed (content : Option JVal) : List Eff :=
  if truthy content &&
      (match content with
       | some v => match jvGet v "status" with
         | some (.jstr st) => st = "success"
         | _ => false
       | none => false) then
    [appendMessageAny "bot-message"
      (match content with | some v => jvGet v "message" | none => none)]
  else
    [appendMessageEff "error-message"
      "An error occurred while processing the visualization response."]

/-- The `document_response` loop (lines 392-398): one `appendMessage` per
entry of the content array, embedding `doc.metadata.filename` and
`doc.page_content` in a fixed template; a `TypeError` thrown by a property
access aborts the loop, keeping the effects already performed. -/
def docLoop : List JVal → List Eff × Option String
  | [] => ([], none)
  | d :: ds =>
    match jsGetE (some d) "metadata" with
    | .error m => ([], some m)
    | .ok md =>
      match jsGetE md "filename" with
      | .error m => ([], some m)
      | .ok fn =>
        match jsGetE (some d) "page_content" with
        | .error m => ([], some m)
        | .ok pc =>
          let e := appendMessageEff "bot-message"
            ("**Filename:** " ++ jsStrO fn ++ "<br>**Content:** " ++ jsStrO pc)
          let r := docLoop ds
          (e :: r.1, r.2)

/-- The message a well-formed `document_response` entry renders to. -/
def docRender (d : JVal) : Eff :=
  appendMessageEff "bot-message"
    ("**Filename:** " ++
      jsStrO ((jvGet d "metadata").bind (fun md => jvGet md "filename")) ++
     "<br>**Content:** " ++ jsStrO (jvGet d "page_content"))

/-- Is `typeof x === 'object'` (true for objects, arrays and `null`)? -/
def isObjectType : Option JVal → Bool
  | some .null => true
  | some (.jobj _) => true
  | some (.jarr _) => true
  | _ => false

/-- The body of the effective `processResponseData` (lines 370-419, the later
of the two declarations): the effects performed inside the `try` block
together with the message of the exception that escapes it, if any.  The
guard `!data || typeof data !== 'object' || !('type' in data)` admits exactly
non-null objects having a `type` key (an array passes the first two tests but
fails `'type' in data`, producing the same error). -/
def processResponseDataCore (data : JVal) : List Eff × Option String :=
  match data with
  | .jobj fs =>
    match lookupField fs "type" with
    | none => ([], some "Invalid response structure")
    | some tv =>
      match tv with
      | .jstr t =>
        if t = "visualization" then (handleVisualResponse fs, none)
        else if t = "text" then
          match lookupField fs "content" with
          | some (.jstr c) =>
            ([.msg "bot-message" (appendMessageBody (convertUrlsToLinks c))], none)
          | _ => ([], some "Invalid text response structure")
        else if t = "document_response" then
          match lookupField fs "content" with
          | some (.jarr docs) => docLoop docs
          | _ => ([], some "Invalid document_response structure")
        else if t = "chart_analysis" then
          if isObjectType (lookupField fs "content") then
            ([appendMessageEff "bot-message"
                ("Chart Analysis: " ++
                  jsonStringify ((lookupField fs "content").getD .null))], none)
          else ([], some "Invalid chart_analysis structure")
        else if t = "error" then
          ([appendMessageAny "error-message" (lookupField fs "content")], none)
        else ([], some ("Unexpected response type: " ++ t))
      | tv => ([], some ("Unexpected response type: " ++ jsStrV tv))
  | _ => ([], some "Invalid response structure")

/-- The effective `processResponseData` (lines 370-419): the `catch` turns
any exception thrown during dispatch into a single appended error message;
effects already performed are kept. -/
def processResponseData (data : JVal) : List Eff :=
  match processResponseDataCore data with
  | (effs, none) => effs
  | (effs, some m) =>
    effs ++ [appendMessageEff "error-message" ("Error processing response: " ++ m)]

/-- JS `String.prototype.trim` whitespace (the characters that occur in
practice: space, tab, line feed, carriage return, vertical tab, form feed,
no-break space, BOM). -/
def jsWhitespace (c : Char) : Bool :=
  c = ' ' || c = '\t' || c = '\n' || c = '\r' || c = '\x0b' || c = '\x0c' ||
  c = ' ' || c = '﻿'

/-- JS `s.trim()`. -/
def jsTrim (s : String) : String :=
  ⟨((s.data.dropWhile jsWhitespace).reverse.dropWhile jsWhitespace).reverse⟩

/-- Outcome of one `fetch` as observed by a handler: either the fetch promise
rejected (network failure, with the error message), or a response arrived
with its `ok` flag, numeric `status`, `statusText`, and `json` — the parsed
body when `response.json()` resolves, `none` when the body is not valid JSON
(so `response.json()` rejects). -/
inductive FetchResult where
  | fail (emsg : String)
  | resp (ok : Bool) (status : Nat) (statusTxt : String) (json : Option JVal)

/-- The model message of a `response.json()` rejection (the concrete text is
environment-specific; only its routing matters to the claims). -/
def jsonParseErrMsg : String := "Unexpected end of JSON input"

/-- The response-processing part of `submitQuery` (lines 104-114): non-OK
statuses append an error message containing `statusText`; a rejection of
`fetch` or of `response.json()` is caught and appends a generic error
message; an OK JSON body is dispatched to `processResponseData`. -/
def submitQueryRespEffs (r : FetchResult) : List Eff :=
  match r with
  | .fail _ =>
    [appendMessageEff "error-message"
      "An error occurred while processing the response."]
  | .resp false _ st _ =>
    [appendMessageEff "error-message" ("An error occurred: " ++ st)]
  | .resp true _ _ none =>
    [appendMessageEff "error-message"
      "An error occurred while processing the response."]
  | .resp true _ _ (some data) => processResponseData data

/-- `submitQuery` (lines 88-116): trims the input; a falsy (empty) trimmed
query returns before any effect; otherwise it appends the user message,
clears the input, shows the loading indicator, POSTs `{query}` to `/query`,
processes the outcome, and hides the loading indicator. -/
def submitQuery (input : String) (r : FetchResult) : List Eff :=
  let query := jsTrim input
  if query = "" then []
  else
    [appendMessageEff "user-message" query,
     .setQueryInput "",
     .loading true,
     .netRequest "/query" query] ++
    submitQueryRespEffs r ++
    [.loading false]

/-- `transcribeAudio` (lines 41-65): posts the recording to `/transcribe`; an
OK JSON body writes `data.transcription` into the query input (a `TypeError`
on that access is caught like a network error); a non-OK status raises an
`alert` carrying the *numeric* status (not a message-log append); a rejected
fetch or JSON parse raises a `Network error` alert; the `finally` clause
clears the chunk buffer and re-enables the start control. -/
def transcribeAudio (r : FetchResult) : List Eff :=
  .netRequest "/transcribe" "recording.webm" ::
  (match r with
   | .resp true _ _ (some data) =>
     match jsGetE (some data) "transcription" with
     | .ok v => [.setQueryInput (jsStrO v)]
     | .error m => [.alertE ("Network error: " ++ m)]
   | .resp true _ _ none => [.alertE ("Network error: " ++ jsonParseErrMsg)]
   | .resp false st _ _ =>
     [.alertE ("Failed to transcribe audio. Status: " ++ toString st)]
   | .fail m => [.alertE ("Network error: " ++ m)]) ++
  [.setStartDisabled false]

/-- `fetchAudio` (lines 283-315): posts to `/synthesize`; a non-OK status
throws (message containing the numeric status), but the `catch` appends only
the fixed text `Failed to play audio.` — the status never reaches the message
log; a rejected fetch lands in the same `catch`. -/
def fetchAudio (text : String) (r : FetchResult) : List Eff :=
  .netRequest "/synthesize" text ::
  match r with
  | .resp true _ _ _ => [.playAudio]
  | .resp false _ _ _ =>
    [appendMessageEff "error-message" "Failed to play audio."]
  | .fail _ => [appendMessageEff "error-message" "Failed to play audio."]

/-- The fetch part of the upload handler (lines 190-214): the chain
`.then(response => response.json())` never consults `response.ok`, so a
non-2xx response with a JSON body follows the normal branch on `data.error`;
only a JSON-parse failure or a rejected fetch (or a `TypeError` on a `null`
body) reaches the `catch`. -/
def uploadFetch (r : FetchResult) : List Eff :=
  match r with
  | .resp _ _ _ (some data) =>
    .loading false ::
    (match jsGetE (some data) "error" with
     | .error _ =>
       [.loading false,
        appendMessageEff "error-message"
          "An error occurred while uploading the file."]
     | .ok e =>
       if truthy e then
         [appendMessageEff "error-message"
           ("Error uploading file: " ++ jsStrO e)]
       else
         appendMessageEff "bot-message"
           ("File uploaded successfully: " ++ jsStrO (jvGet data "message")) ::
         (if truthy (jvGet data "analysis") then
           [appendMessageEff "bot-message"
             ("Chart Analysis: " ++ jsStrO (jvGet data "analysis"))]
          else []))
  | .resp _ _ _ none =>
    [.loading false,
     appendMessageEff "error-message" "An error occurred while uploading the file."]
  | .fail _ =>
    [.loading false,
     appendMessageEff "error-message" "An error occurred while uploading the file."]

/-- `sendFeedback(query, feedback)` (lines 534-543): the POST of
`{query, feedback}` to `/feedback`, followed by `response.json()` with no
`ok` check. -/
def sendFeedback (query feedback : String) : Eff :=
  .feedbackPost query feedback

/-- The feedback-area state after `handleFeedback`: whether the two rating
controls are disabled, the text of the feedback note, and the POST issued. -/
structure FeedbackUI where
  thumbsDisabled : Bool
  note : String
  posted : List Eff
deriving DecidableEq

/-- The state `handleFeedback` (lines 500-531) establishes synchronously,
before the POST completes: both controls disabled, the acknowledgment shown,
the POST sent. -/
def handleFeedbackStart (messageContent feedbackType : String) : FeedbackUI :=
  ⟨true, "Thank you for your feedback!", [sendFeedback messageContent feedbackType]⟩

/-- `handleFeedback` after the POST settles: `sendFeedback`'s promise chain
ends in `response.json()`, so it only rejects on a network failure or a
non-JSON body — the HTTP status is never consulted; on rejection the `catch`
re-enables both controls and replaces the acknowledgment with the error
note. -/
def handleFeedback (messageContent feedbackType : String) (r : FetchResult) :
    FeedbackUI :=
  match r with
  | .resp _ _ _ (some _) => handleFeedbackStart messageContent feedbackType
  | .resp _ _ _ none =>
    ⟨false, "Error sending feedback. Please try again.",
      [sendFeedback messageContent feedbackType]⟩
  | .fail _ =>
    ⟨false, "Error sending feedback. Please try again.",
      [sendFeedback messageContent feedbackType]⟩

/-- Did the feedback POST's promise chain reject? -/
def fetchRejected : FetchResult → Bool
  | .fail _ => true
  | .resp _ _ _ none => true
  | .resp _ _ _ (some _) => false

/-- Audio-capture session phase. -/
inductive ASession where
  | idle
  | recording
  | transcribing
deriving DecidableEq

/-- The recording controls and session phase. -/
structure AudioUI where
  session : ASession
  startDisabled : Bool
  stopDisabled : Bool
deriving DecidableEq

/-- Initial state: no session, start enabled (the stop control starts
disabled in the page markup). -/
def audioInit : AudioUI := ⟨.idle, false, true⟩

/-- Audio-capture events: microphone access granted or denied after a start
click, a stop click, and completion of the `/transcribe` round trip (either
outcome — its `finally` clause runs in both). -/
inductive AEvent where
  | startGranted
  | startDenied
  | stopPressed
  | transcribeDone
deriving DecidableEq

/-- One step of the audio-capture code of `static/script.js`:
`startRecording` (lines 8-31) on grant enables stop, disables start, starts
a (new) recorder; on denial only alerts.  `stopRecording` (lines 33-39) is
guarded by `mediaRecorder.state !== 'inactive'` (the source's own guard, true
exactly while the current recorder is recording); it stops the recorder —
whose `onstop` launches the transcription — disables stop and *immediately
re-enables start*, while the session is still transcribing.
`transcribeAudio`'s `finally` (lines 61-64) re-enables the start control
*unconditionally* — also when it is the stale `finally` of an earlier
session's transcription firing while a newer recording is underway.  The
`session` component tracks the current recorder / in-flight work: a
completing transcription ends the `transcribing` phase, while a stale
completion leaves the newer recorder recording; the button assignment does
not depend on it. -/
def audioStep (s : AudioUI) (e : AEvent) : AudioUI :=
  match e with
  | .startGranted => ⟨.recording, true, false⟩
  | .startDenied => s
  | .stopPressed =>
    if s.session = .recording then ⟨.transcribing, false, true⟩ else s
  | .transcribeDone =>
    ⟨if s.session = .transcribing then .idle else s.session, false, s.stopDisabled⟩

/-- The state after a sequence of audio events from the initial state. -/
def audioRun (es : List AEvent) : AudioUI := es.foldl audioStep audioInit

/-- A response whose `type` field is not one of the five recognized tags —
including responses with no `type` field, non-string `type` values, and
non-object responses (which cannot carry a field at all). -/
def unrecognizedResp (data : JVal) : Bool :=
  match data with
  | .jobj fs =>
    match lookupField fs "type" with
    | some (.jstr t) =>
      !(t = "visualization" || t = "text" || t = "document_response" ||
        t = "chart_analysis" || t = "error")
    | some _ => true
    | none => true
  | _ => true

/-- A well-formed `document_response` entry: an object whose `metadata` is an
object carrying a `filename`, and which carries a `page_content`. -/
def wellFormedDoc (d : JVal) : Bool :=
  match d with
  | .jobj fs =>
    (match lookupField fs "metadata" with
     | some (.jobj ms) => (lookupField ms "filename").isSome
     | _ => false) &&
    (lookupField fs "page_content").isSome
  | _ => false

/-- A `document_response` entry that is an object lacking a `metadata` field
(the malformedness mode of claim C10: `doc.metadata` is `undefined` and the
`filename` access throws). -/
def lacksMetadata (d : JVal) : Bool :=
  match d with
  | .jobj fs => (lookupField fs "metadata").isNone
  | _ => false

/-- Does an effect render an image? -/
def effHasImage : Eff → Bool
  | .msgWithImage _ (some _) => true
  | _ => false

/-- Does an effect append a message (of any class) to the message log? -/
def effIsMsg : Eff → Bool
  | .msg _ _ => true
  | .msgWithImage _ _ => true
  | _ => false

theorem startsWithL_append_true (t a b : List Char)
    (h : startsWithL t (a ++ b) = true) : startsWithL t a = true := by
  induction a generalizing t with
  | nil => cases t <;> rfl
  | cons x xs ih =>
    cases t with
    | nil => simp [startsWithL] at h
    | cons c cs =>
      simp only [List.cons_append, startsWithL, Bool.and_eq_true,
        decide_eq_true_eq] at h ⊢
      exact ⟨h.1, ih cs h.2⟩

theorem containsSub_append_true (t a b : List Char)
    (h : containsSub t (a ++ b) = true) : containsSub t a = true := by
  induction t with
  | nil => exact startsWithL_append_true [] a b h
  | cons c t' ih =>
    simp only [containsSub, Bool.or_eq_true] at h ⊢
    rcases h with h | h
    · exact Or.inl (startsWithL_append_true _ a b h)
    · exact Or.inr (ih h)

theorem containsSub_append_false (t a b : List Char)
    (h : containsSub t a = false) : containsSub t (a ++ b) = false := by
  cases hc : containsSub t (a ++ b) with
  | false => rfl
  | true => exact absurd (containsSub_append_true t a b hc) (by simp [h])

theorem urlCallback_eq_anchorOf (orig : List Char)
    (h : containsSub orig "<a href=".data = false) :
    urlCallback orig = anchorOf := by
  funext u
  have he : "<a href=\"".data ++ u = "<a href=".data ++ ('"' :: u) := by
    rw [show "<a href=\"".data = "<a href=".data ++ ['"'] from by decide,
      List.append_assoc]
    rfl
  unfold urlCallback
  rw [he, containsSub_append_false _ _ _ h]
  simp

/-- C1 counterexample: a `visualization` response with *no* `status` field at
all, but carrying an `image`, still renders the image — the effective
`handleVisualResponse` never consults `status`, so the claim "lacking
`status: success` never renders an image" is false at this input. -/
theorem c1_counterexample :
    processResponseData (.jobj [("type", .jstr "visualization"),
      ("content", .jstr "plot"), ("image", .jstr "img.png")]) =
      [Eff.msgWithImage "plot" (some "img.png")] := by
  decide

/-- C1 (amended): for every `visualization` response object, an image is
rendered exactly when the response carries a truthy `image` field — the
`status` field plays no role (the `status === 'success'` check exists only in
the earlier, shadowed declaration of `handleVisualResponse`). -/
theorem c1_amended (fs : List (String × JVal)) :
    ((processResponseData
        (.jobj (("type", .jstr "visualization") :: fs))).any effHasImage) =
      truthy (lookupField (("type", .jstr "visualization") :: fs) "image") := by
  have hl : lookupField (("type", JVal.jstr "visualization") :: fs) "image" =
      lookupField fs "image" := by simp [lookupField]
  rw [hl]
  cases htr : truthy (lookupField fs "image") <;>
    simp [processResponseData, processResponseDataCore, handleVisualResponse,
      lookupField, htr, effHasImage]

/-- Helper: when the dispatch core performs no effect and throws `m`, the
rendered output is the single caught-error message. -/
theorem processResponseData_err (data : JVal) (m : String)
    (h : processResponseDataCore data = ([], some m)) :
    processResponseData data = [Eff.msg "error-message"
      (appendMessageBody ("Error processing response: " ++ m))] := by
  simp [processResponseData, h, appendMessageEff]

/-- C2: every response whose `type` is not one of the five recognized tags —
including responses with no `type` field or that are not objects — produces
exactly one appended message, of the error class (the `throw` in the dispatch
is caught by the surrounding `catch`; the model is a total function, so
totality itself witnesses that no exception propagates). -/
theorem c2_unknown_type (data : JVal) (h : unrecognizedResp data = true) :
    ∃ b, processResponseData data = [Eff.msg "error-message" b] := by
  cases data with
  | null => exact ⟨_, processResponseData_err _ "Invalid response structure" rfl⟩
  | jbool b => exact ⟨_, processResponseData_err _ "Invalid response structure" rfl⟩
  | jnum n => exact ⟨_, processResponseData_err _ "Invalid response structure" rfl⟩
  | jstr s => exact ⟨_, processResponseData_err _ "Invalid response structure" rfl⟩
  | jarr xs => exact ⟨_, processResponseData_err _ "Invalid response structure" rfl⟩
  | jobj fs =>
    cases hl : lookupField fs "type" with
    | none =>
      exact ⟨_, processResponseData_err _ "Invalid response structure"
        (by simp [processResponseDataCore, hl])⟩
    | some tv =>
      cases tv with
      | null =>
        exact ⟨_, processResponseData_err _
          ("Unexpected response type: " ++ jsStrV .null)
          (by simp [processResponseDataCore, hl])⟩
      | jbool b =>
        exact ⟨_, processResponseData_err _
          ("Unexpected response type: " ++ jsStrV (.jbool b))
          (by simp [processResponseDataCore, hl])⟩
      | jnum n =>
        exact ⟨_, processResponseData_err _
          ("Unexpected response type: " ++ jsStrV (.jnum n))
          (by simp [processResponseDataCore, hl])⟩
      | jarr xs =>
        exact ⟨_, processResponseData_err _
          ("Unexpected response type: " ++ jsStrV (.jarr xs))
          (by simp [processResponseDataCore, hl])⟩
      | jobj fs2 =>
        exact ⟨_, processResponseData_err _
          ("Unexpected response type: " ++ jsStrV (.jobj fs2))
          (by simp [processResponseDataCore, hl])⟩
      | jstr t =>
        have h' : ¬(t = "visualization") ∧ ¬(t = "text") ∧
            ¬(t = "document_response") ∧ ¬(t = "chart_analysis") ∧
            ¬(t = "error") := by
          simp [unrecognizedResp, hl] at h
          tauto
        obtain ⟨h1, h2, h3, h4, h5⟩ := h'
        exact ⟨_, processResponseData_err _ ("Unexpected response type: " ++ t)
          (by simp [processResponseDataCore, hl, h1, h2, h3, h4, h5])⟩

/-- C2 witness: the unrecognized tag `banana` yields exactly one error
message. -/
theorem c2_witness :
    unrecognizedResp (.jobj [("type", .jstr "banana")]) = true ∧
    ∃ b, processResponseData (.jobj [("type", .jstr "banana")]) =
      [Eff.msg "error-message" b] :=
  ⟨by decide, c2_unknown_type _ (by decide)⟩

/-- C3 counterexample: a text response whose content already contains an
anchor-wrapped URL plus a *bare* occurrence of the same URL renders
completely unchanged — the bare URL is not wrapped, because the callback's
`text.includes` guard fires for every occurrence.  The text contains the URL
three times but the rendered message still contains exactly one anchor, so
"every bare URL replaced by exactly one anchor" fails at this input. -/
theorem c3_counterexample :
    processResponseData (.jobj [("type", .jstr "text"),
      ("content",
        .jstr "<a href=\"https://x.com\">https://x.com</a> see https://x.com")]) =
      [Eff.msg "bot-message"
        "<a href=\"https://x.com\">https://x.com</a> see https://x.com"] ∧
    countSub "<a href=\"https://x.com\">https://x.com</a> see https://x.com".data
      "https://x.com".data = 3 ∧
    countSub "<a href=\"https://x.com\">https://x.com</a> see https://x.com".data
      "<a ".data = 1 := by
  refine ⟨?_, ?_, ?_⟩ <;> decide

/-- C3 (amended): on any text containing no `<a href=` substring, the
`includes` guard of the callback never fires, so `convertUrlsToLinks` wraps
every URL match in exactly one anchor — it coincides with the spec-modelled
`wrapAllUrls`.  (When the text does contain `<a href=`, matches extending one
of those hrefs are left bare, as the counterexample shows, so no URL is ever
wrapped twice.) -/
theorem c3_amended (s : String)
    (h : containsSub s.data "<a href=".data = false) :
    convertUrlsToLinks s = wrapAllUrls s := by
  unfold convertUrlsToLinks wrapAllUrls
  rw [urlCallback_eq_anchorOf s.data h]

/-- C3 witness: the spec's own example input, which contains no anchor yet. -/
theorem c3_amended_witness :
    containsSub "check out https://example.com".data "<a href=".data = false ∧
    convertUrlsToLinks "check out https://example.com" =
      wrapAllUrls "check out https://example.com" :=
  ⟨by decide, c3_amended _ (by decide)⟩

/-- C4: on the claimed input `"**Response:**\n- a\n- b"` the `appendMessage`
pipeline produces `"**Response:**<br><li>a<br>- b</li>"`: no `<ul>` is ever
produced (all newlines were replaced by `<br>` *before* the pattern requiring
`**Response:**` followed by a newline is tried), and the single greedy `<li>`
spans from the first bullet to the end of the text instead of one `<li>` per
bulleted line. -/
theorem c4_no_list_produced :
    appendMessageBody "**Response:**\n- a\n- b" =
      "**Response:**<br><li>a<br>- b</li>" ∧
    containsSub "**Response:**<br><li>a<br>- b</li>".data "<ul>".data = false := by
  refine ⟨?_, ?_⟩ <;> decide

/-- Helper: a well-formed entry renders to its template message and the loop
continues. -/
theorem docLoop_cons_wf (d : JVal) (ds : List JVal)
    (hd : wellFormedDoc d = true) :
    docLoop (d :: ds) = (docRender d :: (docLoop ds).1, (docLoop ds).2) := by
  cases d with
  | jobj fs =>
    cases hm : lookupField fs "metadata" with
    | none => simp [wellFormedDoc, hm] at hd
    | some md =>
      cases md with
      | jobj ms =>
        cases hf : lookupField ms "filename" with
        | none => simp [wellFormedDoc, hm, hf] at hd
        | some fv =>
          cases hp : lookupField fs "page_content" with
          | none => simp [wellFormedDoc, hm, hp] at hd
          | some pv => simp [docLoop, jsGetE, hm, hf, hp, docRender, jvGet]
      | null => simp [wellFormedDoc, hm] at hd
      | jbool b => simp [wellFormedDoc, hm] at hd
      | jnum n => simp [wellFormedDoc, hm] at hd
      | jstr s => simp [wellFormedDoc, hm] at hd
      | jarr xs => simp [wellFormedDoc, hm] at hd
  | null => simp [wellFormedDoc] at hd
  | jbool b => simp [wellFormedDoc] at hd
  | jnum n => simp [wellFormedDoc] at hd
  | jstr s => simp [wellFormedDoc] at hd
  | jarr xs => simp [wellFormedDoc] at hd

/-- Helper: the loop over well-formed entries renders every entry, in order,
and throws nothing. -/
theorem docLoop_wellFormed (docs : List JVal)
    (h : ∀ d ∈ docs, wellFormedDoc d = true) :
    docLoop docs = (docs.map docRender, none) := by
  induction docs with
  | nil => rfl
  | cons d ds ih =>
    rw [docLoop_cons_wf d ds (h d (List.mem_cons_self d ds)),
      ih (fun x hx => h x (List.mem_cons_of_mem d hx))]
    simp

/-- C5: a `document_response` whose content is an array of well-formed
entries appends exactly one bot message per entry, in array order (the result
is the entrywise image of `docRender`, which produces a `bot-message`
append). -/
theorem c5_document_messages (docs : List JVal) (fs : List (String × JVal))
    (h : ∀ d ∈ docs, wellFormedDoc d = true) :
    processResponseData (.jobj (("type", .jstr "document_response") ::
        ("content", .jarr docs) :: fs)) =
      docs.map docRender := by
  simp [processResponseData, processResponseDataCore, lookupField,
    docLoop_wellFormed docs h]

/-- C5 witness: two well-formed entries render to exactly their two bot
messages, in order. -/
theorem c5_witness :
    (∀ d ∈ [JVal.jobj [("metadata", JVal.jobj [("filename", JVal.jstr "a.txt")]),
              ("page_content", JVal.jstr "alpha")],
            JVal.jobj [("metadata", JVal.jobj [("filename", JVal.jstr "b.txt")]),
              ("page_content", JVal.jstr "beta")]], wellFormedDoc d = true) ∧
    processResponseData (.jobj [("type", .jstr "document_response"),
        ("content", .jarr
          [JVal.jobj [("metadata", JVal.jobj [("filename", JVal.jstr "a.txt")]),
             ("page_content", JVal.jstr "alpha")],
           JVal.jobj [("metadata", JVal.jobj [("filename", JVal.jstr "b.txt")]),
             ("page_content", JVal.jstr "beta")]])]) =
      [JVal.jobj [("metadata", JVal.jobj [("filename", JVal.jstr "a.txt")]),
         ("page_content", JVal.jstr "alpha")],
       JVal.jobj [("metadata", JVal.jobj [("filename", JVal.jstr "b.txt")]),
         ("page_content", JVal.jstr "beta")]].map docRender :=
  ⟨by decide, c5_document_messages _ [] (by decide)⟩

/-- Helper: with well-formed entries before it, the first entry lacking a
`metadata` object renders nothing itself; the `TypeError` aborts the loop
keeping the earlier renders. -/
theorem docLoop_partial (good : List JVal) (bad : JVal) (rest : List JVal)
    (hg : ∀ d ∈ good, wellFormedDoc d = true) (hb : lacksMetadata bad = true) :
    docLoop (good ++ bad :: rest) =
      (good.map docRender,
       some "Cannot read properties of undefined (reading \x27filename\x27)") := by
  induction good with
  | nil =>
    cases bad with
    | jobj bfs =>
      cases hm : lookupField bfs "metadata" with
      | none => simp [docLoop, jsGetE, hm]
      | some v => simp [lacksMetadata, hm] at hb
    | null => simp [lacksMetadata] at hb
    | jbool b => simp [lacksMetadata] at hb
    | jnum n => simp [lacksMetadata] at hb
    | jstr s => simp [lacksMetadata] at hb
    | jarr xs => simp [lacksMetadata] at hb
  | cons d ds ih =>
    rw [List.cons_append,
      docLoop_cons_wf d (ds ++ bad :: rest) (hg d (List.mem_cons_self d ds)),
      ih (fun x hx => hg x (List.mem_cons_of_mem d hx))]
    simp

/-- C10: rendering a `document_response` is not atomic: with `k` well-formed
entries before the first entry lacking a `metadata` object, the `k` bot
messages already appended remain, followed by exactly one error message; the
entries after the malformed one are never rendered and nothing is rolled
back. -/
theorem c10_partial_render (good : List JVal) (bad : JVal) (rest : List JVal)
    (fs : List (String × JVal))
    (hg : ∀ d ∈ good, wellFormedDoc d = true) (hb : lacksMetadata bad = true) :
    processResponseData (.jobj (("type", .jstr "document_response") ::
        ("content", .jarr (good ++ bad :: rest)) :: fs)) =
      good.map docRender ++
        [Eff.msg "error-message" (appendMessageBody
          ("Error processing response: " ++
           "Cannot read properties of undefined (reading \x27filename\x27)"))] := by
  simp [processResponseData, processResponseDataCore, lookupField,
    docLoop_partial good bad rest hg hb, appendMessageEff]

/-- C10 witness: one good entry, then an entry with no `metadata`, then
another good entry: the first message survives, one error message follows,
the trailing entry is never rendered. -/
theorem c10_witness :
    (∀ d ∈ [JVal.jobj [("metadata", JVal.jobj [("filename", JVal.jstr "a.txt")]),
              ("page_content", JVal.jstr "alpha")]], wellFormedDoc d = true) ∧
    lacksMetadata (JVal.jobj [("page_content", JVal.jstr "beta")]) = true ∧
    processResponseData (.jobj [("type", .jstr "document_response"),
        ("content", .jarr
          [JVal.jobj [("metadata", JVal.jobj [("filename", JVal.jstr "a.txt")]),
             ("page_content", JVal.jstr "alpha")],
           JVal.jobj [("page_content", JVal.jstr "beta")],
           JVal.jobj [("metadata", JVal.jobj [("filename", JVal.jstr "c.txt")]),
             ("page_content", JVal.jstr "gamma")]])]) =
      [JVal.jobj [("metadata", JVal.jobj [("filename", JVal.jstr "a.txt")]),
         ("page_content", JVal.jstr "alpha")]].map docRender ++
        [Eff.msg "error-message" (appendMessageBody
          ("Error processing response: " ++
           "Cannot read properties of undefined (reading \x27filename\x27)"))] :=
  ⟨by decide, by decide,
   c10_partial_render
     [JVal.jobj [("metadata", JVal.jobj [("filename", JVal.jstr "a.txt")]),
        ("page_content", JVal.jstr "alpha")]]
     (JVal.jobj [("page_content", JVal.jstr "beta")])
     [JVal.jobj [("metadata", JVal.jobj [("filename", JVal.jstr "c.txt")]),
        ("page_content", JVal.jstr "gamma")]]
     [] (by decide) (by decide)⟩

/-- C6: an input that trims to the empty string makes `submitQuery` return
before any effect: no message is appended, no request is issued, the loading
indicator is never touched. -/
theorem c6_whitespace_noop (input : String) (r : FetchResult)
    (h : jsTrim input = "") : submitQuery input r = [] := by
  simp [submitQuery, h]

/-- C6 witness: a whitespace-only input produces no effects at all, whatever
the network would have answered. -/
theorem c6_witness :
    jsTrim "  \t\n " = "" ∧ submitQuery "  \t\n " (.fail "down") = [] :=
  ⟨by decide, c6_whitespace_noop _ _ (by decide)⟩

/-- C7 counterexample: two endpoints violate the claim at concrete inputs.
A non-2xx `/feedback` response with a JSON body takes the success path — the
acknowledgment stays, the controls stay disabled, and no error message
containing the status text is ever produced; a non-2xx `/transcribe`
response surfaces as a browser alert carrying the numeric status, not as an
appended error message containing the status text. -/
theorem c7_counterexample :
    handleFeedback "q" "positive"
        (.resp false 500 "Internal Server Error" (some (.jobj []))) =
      ⟨true, "Thank you for your feedback!", [sendFeedback "q" "positive"]⟩ ∧
    transcribeAudio (.resp false 500 "Internal Server Error" none) =
      [.netRequest "/transcribe" "recording.webm",
       .alertE "Failed to transcribe audio. Status: 500",
       .setStartDisabled false] := by
  refine ⟨?_, ?_⟩ <;> decide

/-- C7 (amended): only `/query` surfaces a non-2xx status as an appended
error message containing the status text (and a generic error message on a
rejected fetch); `/transcribe` surfaces both through alerts (numeric status);
`/synthesize` appends a generic error message without the status;
`/upload` ignores the status entirely (identical behaviour for any two
statuses over the same JSON body); `/feedback` treats any response with a
JSON body — 2xx or not — as success.  Every failure is handled locally (all
handlers are total functions of the fetch outcome): nothing propagates. -/
theorem c7_amended :
    (∀ (n : Nat) (st : String) (j : Option JVal),
      submitQueryRespEffs (.resp false n st j) =
        [Eff.msg "error-message"
          (appendMessageBody ("An error occurred: " ++ st))]) ∧
    (∀ m : String, submitQueryRespEffs (.fail m) =
      [Eff.msg "error-message"
        (appendMessageBody "An error occurred while processing the response.")]) ∧
    (∀ (n : Nat) (st : String) (b : Option JVal),
      transcribeAudio (.resp false n st b) =
        [.netRequest "/transcribe" "recording.webm",
         .alertE ("Failed to transcribe audio. Status: " ++ toString n),
         .setStartDisabled false]) ∧
    (∀ (txt st : String) (n : Nat) (b : Option JVal),
      fetchAudio txt (.resp false n st b) =
        [.netRequest "/synthesize" txt,
         Eff.msg "error-message" (appendMessageBody "Failed to play audio.")]) ∧
    (∀ (ok1 ok2 : Bool) (n1 n2 : Nat) (st1 st2 : String) (d : JVal),
      uploadFetch (.resp ok1 n1 st1 (some d)) =
        uploadFetch (.resp ok2 n2 st2 (some d))) ∧
    (∀ (q f st : String) (n : Nat) (j : JVal),
      handleFeedback q f (.resp false n st (some j)) = handleFeedbackStart q f) := by
  refine ⟨fun n st j => rfl, fun m => rfl, fun n st b => rfl,
    fun txt st n b => rfl, fun ok1 ok2 n1 n2 st1 st2 d => rfl,
    fun q f st n j => rfl⟩

/-- C8 counterexample: after a granted start and a stop click the session is
still active (`transcribing`: the recording is being uploaded to
`/transcribe`), yet the start control has already been re-enabled by
`stopRecording` — so the start control does *not* remain disabled until the
session reaches idle. -/
theorem c8_counterexample :
    (audioRun [.startGranted, .stopPressed]).session = .transcribing ∧
    (audioRun [.startGranted, .stopPressed]).startDisabled = false := by
  refine ⟨?_, ?_⟩ <;> decide

/-- C8 (amended): every granted start disables the start control and puts
the session in the recording phase — so an *immediate* second start is
rejected — but the control is re-enabled by the next stop click (already
during `transcribing`, per the counterexample) and *unconditionally* by
every completion of a `/transcribe` round trip: the stale `finally` of a
previous session's transcription, firing during a second recording started
while it was in flight, re-enables the start control even though the session
is recording.  The rejection window is only from a granted start to the next
stop press or transcription completion, never "until the session reaches
idle". -/
theorem c8_amended :
    (∀ es : List AEvent,
      (audioRun (es ++ [AEvent.startGranted])).startDisabled = true ∧
      (audioRun (es ++ [AEvent.startGranted])).session = .recording) ∧
    (∀ es : List AEvent,
      (audioRun (es ++ [AEvent.transcribeDone])).startDisabled = false) ∧
    ((audioRun [AEvent.startGranted, AEvent.stopPressed, AEvent.startGranted,
        AEvent.transcribeDone]).session = .recording ∧
     (audioRun [AEvent.startGranted, AEvent.stopPressed, AEvent.startGranted,
        AEvent.transcribeDone]).startDisabled = false) := by
  refine ⟨fun es => ?_, fun es => ?_, by decide, by decide⟩
  · rw [audioRun, List.foldl_append]
    exact ⟨rfl, rfl⟩
  · rw [audioRun, List.foldl_append]
    rfl

/-- C9: `handleFeedback` synchronously disables both controls, shows the
acknowledgment and posts `{query: messageText, feedback: verdict}`; whenever
the POST's promise chain rejects, both controls are re-enabled and the
acknowledgment is replaced by the retry note. -/
theorem c9_feedback (m v : String) (r : FetchResult) :
    handleFeedbackStart m v =
      ⟨true, "Thank you for your feedback!", [sendFeedback m v]⟩ ∧
    (fetchRejected r = true →
      handleFeedback m v r =
        ⟨false, "Error sending feedback. Please try again.",
          [sendFeedback m v]⟩) := by
  refine ⟨rfl, fun h => ?_⟩
  cases r with
  | fail e => rfl
  | resp ok n st j =>
    cases j with
    | none => rfl
    | some d => simp [fetchRejected] at h

/-- C9 witness: a rejected POST re-enables the controls and shows the retry
note. -/
theorem c9_witness :
    handleFeedback "Nice" "positive" (.fail "net down") =
      ⟨false, "Error sending feedback. Please try again.",
        [sendFeedback "Nice" "positive"]⟩ :=
  (c9_feedback "Nice" "positive" (.fail "net down")).2 (by decide)
